import Mathlib

/-
  Verification development for the photography_contest web application
  (src/app.py, src/config.py).  The application is a thin Flask layer over a
  MySQL schema; the business logic verified here is the contest lifecycle
  recompute, the voting validation chain and vote insert, the leaderboard
  ranking, photo submission with its entry fee, contest creation, and the
  two database helpers execute_query / call_procedure.

  Dates are modelled as Nat timestamps, row sets as lists of rows (a list
  models a table; the first matching row is what a fetch_one returns).
-/

namespace PhotoContest

/-- Contest.Status values: 'Upcoming', 'Active', 'Completed', 'Cancelled'. -/
inductive Status where
  | upcoming
  | active
  | completed
  | cancelled
deriving DecidableEq, Repr

/-- PhotoContestSubmission.SubmissionStatus values: 'Pending', 'Approved', 'Rejected'. -/
inductive SubStatus where
  | pending
  | approved
  | rejected
deriving DecidableEq, Repr

/-- A row of the Contest table (columns used by the application code:
ContestID, Title, StartDate, EndDate, Max_participants, Prize_points,
Entry_fee, Manager_id, Status). -/
structure Contest where
  contestID : Nat
  title : String
  startDate : Nat
  endDate : Nat
  maxParticipants : Nat
  prizePoints : Nat
  entryFee : Nat
  managerId : Nat
  status : Status
deriving DecidableEq, Repr

/-- A row of the Photo table (PhotoID, UserID owner, Title, FilePath). -/
structure Photo where
  photoID : Nat
  userID : Nat
  title : String
  filePath : String
deriving DecidableEq, Repr

/-- A row of the PhotoContestSubmission table. -/
structure Submission where
  submissionID : Nat
  photoID : Nat
  contestID : Nat
  submissionStatus : SubStatus
deriving DecidableEq, Repr

/-- A row of the Votes table.  Each row has an auto-increment VoteID primary
key, so distinct rows always carry distinct VoteIDs; the triple
(UserID, PhotoID, ContestID) is covered by a UNIQUE constraint. -/
structure VoteRow where
  userID : Nat
  photoID : Nat
  contestID : Nat
deriving DecidableEq, Repr

/-- A row of the User table (columns used by the verified operations:
UserID and Coins; Name/Email/Password only feed authentication, which is
out of the verified core). -/
structure UserRow where
  userID : Nat
  coins : Nat
deriving DecidableEq, Repr

/-- The database state shared by the verified operations. -/
structure DB where
  users : List UserRow
  contests : List Contest
  photos : List Photo
  submissions : List Submission
  votes : List VoteRow
deriving DecidableEq, Repr

/-! ## Contest status recompute

Both `index` (src/app.py lines 123-140) and `api_update_statuses`
(lines 730-739) run the same UPDATE:

    UPDATE Contest
    SET Status = CASE
        WHEN NOW() < StartDate THEN 'Upcoming'
        WHEN NOW() BETWEEN StartDate AND EndDate THEN 'Active'
        WHEN NOW() > EndDate THEN 'Completed'
        ELSE Status
    END
    WHERE Status NOT IN ('Cancelled')

SQL CASE takes the FIRST branch whose condition holds, and the WHERE clause
skips Cancelled rows entirely. -/

/-- The per-row effect of the status recompute UPDATE at time `now`. -/
def recomputeStatus (now : Nat) (c : Contest) : Contest :=
  if c.status = Status.cancelled then c
  else
    { c with status :=
        if now < c.startDate then Status.upcoming
        else if c.startDate ≤ now ∧ now ≤ c.endDate then Status.active
        else if c.endDate < now then Status.completed
        else c.status }

/-- The whole-table recompute: the UPDATE touches every row of Contest. -/
def recomputeStatuses (now : Nat) (cs : List Contest) : List Contest :=
  cs.map (recomputeStatus now)

/-- A Cancelled contest used to refute the unrestricted form of C1. -/
def cancelledPast : Contest :=
  { contestID := 1, title := "a", startDate := 0, endDate := 5,
    maxParticipants := 10, prizePoints := 100, entryFee := 3,
    managerId := 1, status := Status.cancelled }

/-- A non-Cancelled contest whose StartDate lies after its EndDate (the
application never validates the date order on creation), used to refute the
"now past EndDate implies Completed" reading even for non-Cancelled rows. -/
def invertedDates : Contest :=
  { contestID := 2, title := "b", startDate := 20, endDate := 5,
    maxParticipants := 10, prizePoints := 100, entryFee := 3,
    managerId := 1, status := Status.upcoming }

/-- C1 counterexample: the claim's "for every contest, once now is past
EndDate a subsequent recompute yields Status = Completed" is false at two
concrete inputs: a Cancelled contest is left Cancelled, and a non-Cancelled
contest with StartDate > now > EndDate is set to Upcoming, because the SQL
CASE's first branch (now < StartDate) wins. -/
theorem C1_counterexample :
    (cancelledPast.endDate < 10 ∧
      (recomputeStatus 10 cancelledPast).status ≠ Status.completed) ∧
    (invertedDates.status ≠ Status.cancelled ∧ invertedDates.endDate < 10 ∧
      (recomputeStatus 10 invertedDates).status = Status.upcoming ∧
      (recomputeStatus 10 invertedDates).status ≠ Status.completed) := by
  decide

/-- C1 (amended): for every contest whose Status is not Cancelled, the
recompute at `now` sets Status = Upcoming if now < StartDate, Active if
StartDate ≤ now ≤ EndDate, and — provided StartDate ≤ EndDate — Completed
if now > EndDate; the updated row is what the whole-table recompute stores. -/
theorem C1_recompute_cases (now : Nat) (cs : List Contest) (c : Contest)
    (hmem : c ∈ cs) (h : c.status ≠ Status.cancelled) :
    recomputeStatus now c ∈ recomputeStatuses now cs ∧
    (now < c.startDate → (recomputeStatus now c).status = Status.upcoming) ∧
    (c.startDate ≤ now → now ≤ c.endDate →
      (recomputeStatus now c).status = Status.active) ∧
    (c.startDate ≤ c.endDate → c.endDate < now →
      (recomputeStatus now c).status = Status.completed) := by
  refine ⟨List.mem_map_of_mem (recomputeStatus now) hmem, ?_, ?_, ?_⟩
  · intro hlt
    simp [recomputeStatus, h, hlt]
  · intro h1 h2
    simp only [recomputeStatus, if_neg h]
    rw [if_neg (by omega), if_pos ⟨h1, h2⟩]
  · intro horder hpast
    simp only [recomputeStatus, if_neg h]
    rw [if_neg (by omega), if_neg (by omega), if_pos hpast]

/-- Concrete instance of C1_recompute_cases: an Active-window contest. -/
def sampleContest : Contest :=
  { contestID := 3, title := "c", startDate := 2, endDate := 5,
    maxParticipants := 10, prizePoints := 100, entryFee := 3,
    managerId := 1, status := Status.upcoming }

/-- Witness for C1_recompute_cases at now = 7 on a one-row table. -/
theorem C1_recompute_cases_witness :
    (sampleContest ∈ [sampleContest] ∧ sampleContest.status ≠ Status.cancelled) ∧
    (recomputeStatus 7 sampleContest ∈ recomputeStatuses 7 [sampleContest] ∧
      (7 < sampleContest.startDate →
        (recomputeStatus 7 sampleContest).status = Status.upcoming) ∧
      (sampleContest.startDate ≤ 7 → 7 ≤ sampleContest.endDate →
        (recomputeStatus 7 sampleContest).status = Status.active) ∧
      (sampleContest.startDate ≤ sampleContest.endDate → sampleContest.endDate < 7 →
        (recomputeStatus 7 sampleContest).status = Status.completed)) :=
  ⟨⟨by decide, by decide⟩,
    C1_recompute_cases 7 [sampleContest] sampleContest (by decide) (by decide)⟩

/-- C2: the recompute never overwrites a Cancelled contest — the WHERE
clause `Status NOT IN ('Cancelled')` skips the row entirely, so the row is
unchanged and its status is still Cancelled afterwards. -/
theorem C2_cancelled_sticky (now : Nat) (c : Contest)
    (h : c.status = Status.cancelled) :
    recomputeStatus now c = c ∧
    (recomputeStatus now c).status = Status.cancelled := by
  constructor
  · simp [recomputeStatus, h]
  · simp [recomputeStatus, h]

/-- Witness for C2_cancelled_sticky at now = 10. -/
theorem C2_cancelled_sticky_witness :
    cancelledPast.status = Status.cancelled ∧
    (recomputeStatus 10 cancelledPast = cancelledPast ∧
      (recomputeStatus 10 cancelledPast).status = Status.cancelled) :=
  ⟨by decide, C2_cancelled_sticky 10 cancelledPast (by decide)⟩

/-- Helper: one recompute pass is a per-row fixed point of a second pass at
the same time. -/
theorem recomputeStatus_fixed (now : Nat) (c : Contest) :
    recomputeStatus now (recomputeStatus now c) = recomputeStatus now c := by
  by_cases h : c.status = Status.cancelled
  · simp [recomputeStatus, h]
  · simp only [recomputeStatus, if_neg h]
    by_cases h1 : now < c.startDate
    · simp [h1]
    · by_cases h2 : c.startDate ≤ now ∧ now ≤ c.endDate
      · simp [h1, h2]
      · have h3 : c.endDate < now := by omega
        simp [h1, h2, h3]

/-- C9: the status recompute is idempotent — running the UPDATE twice at
the same time `now` yields the same Contest table as running it once. -/
theorem C9_recompute_idempotent (now : Nat) (cs : List Contest) :
    recomputeStatuses now (recomputeStatuses now cs) = recomputeStatuses now cs := by
  simp only [recomputeStatuses, List.map_map]
  exact List.map_congr_left fun c _ => recomputeStatus_fixed now c

/-! ## Database helpers

src/app.py lines 34-59 (`execute_query`) and 61-84 (`call_procedure`).
Both open a connection (which may fail, giving an early `return None`
before any try block), then run the database work inside
try/except/finally.  The Python control flow has more ways out than a
caught error:

  * `cursor = connection.cursor(dictionary=True)` is the first statement
    of the try.  If IT raises an Error, the except handler runs (printing,
    rolling back when a commit was pending, preparing `return None`), but
    the finally block then evaluates `cursor.close()` with `cursor` still
    unbound, so the finally raises UnboundLocalError, which discards the
    pending return and propagates to the route handler.
  * `connection.rollback()` sits INSIDE the except handler (lines 55 and
    80).  If the rollback itself raises an Error — e.g. on a dead
    connection — that Error is uncaught and propagates to the caller
    (unless the finally's close also raises, in which case the close
    failure replaces it).
  * `cursor.close()` / `connection.close()` in the finally are unguarded;
    an Error there replaces any pending return or exception and
    propagates.
  * Only an Error raised by the execute/commit/fetch work, with cursor,
    rollback and close all healthy, takes the documented path: caught,
    rolled back when a commit was pending, None returned.

The model passes each potentially failing collaborator explicitly: the
connection, the cursor creation, the rollback and the finally closes; the
query work itself is a function from the state to either an error or a
(new state, value) pair, and the new state only persists when the helper
commits. -/

/-- The mysql.connector.Error values raised inside the helpers. -/
inductive DBError where
  | duplicateEntry
  | otherError
deriving DecidableEq, Repr

/-- An exception escaping a helper to the route handler. -/
inductive PyExc where
  | dbError (e : DBError)  -- a mysql.connector.Error left uncaught
  | unboundLocal           -- UnboundLocalError: the finally's cursor.close() with cursor unbound
deriving DecidableEq, Repr

/-- What the route handler observes from a helper call: a normal return
(Python None or a value), or a propagating exception. -/
inductive PyResult (α : Type) where
  | value (a : Option α)
  | raised (e : PyExc)
deriving DecidableEq, Repr

/-- `execute_query(query, params, fetch_one, fetch_all, commit)` with the
full Python control flow: no connection → early None return; cursor
creation raising → the finally's `cursor.close()` raises UnboundLocalError
which replaces the except handler's outcome; the query work raising → the
except handler rolls back when a commit was pending (a failing rollback
propagates its own Error) and returns None, with a failing finally close
replacing either outcome; on success, commit persists the new state and
returns the last row id, a fetch returns the rows, and a call with no
fetch and no commit falls through to Python's implicit None — again unless
the finally close raises. -/
def execute_query {σ α : Type} (run : σ → Except DBError (σ × α))
    (fetch_one fetch_all commit : Bool) (conn : Option Unit)
    (cursorRes rollbackRes closeRes : Except DBError Unit) (s : σ) :
    σ × PyResult α :=
  match conn with
  | none => (s, PyResult.value none)
  | some _ =>
    match cursorRes with
    | Except.error _ =>
      -- the except handler runs, but the finally's cursor.close() then hits
      -- the unbound local and its UnboundLocalError wins over everything
      (s, PyResult.raised PyExc.unboundLocal)
    | Except.ok _ =>
      match run s with
      | Except.error _ =>
        if commit then
          match rollbackRes with
          | Except.error e2 =>
            match closeRes with
            | Except.error e3 => (s, PyResult.raised (PyExc.dbError e3))
            | Except.ok _ => (s, PyResult.raised (PyExc.dbError e2))
          | Except.ok _ =>
            match closeRes with
            | Except.error e3 => (s, PyResult.raised (PyExc.dbError e3))
            | Except.ok _ => (s, PyResult.value none)
        else
          match closeRes with
          | Except.error e3 => (s, PyResult.raised (PyExc.dbError e3))
          | Except.ok _ => (s, PyResult.value none)
      | Except.ok (s', a) =>
        match closeRes with
        | Except.error e3 =>
          (if commit then s' else s, PyResult.raised (PyExc.dbError e3))
        | Except.ok _ =>
          (if commit then s' else s,
            PyResult.value
              (if commit then some a
               else if fetch_one then some a
               else if fetch_all then some a
               else none))

/-- `call_procedure(proc_name, params)` with the same control flow: no
connection → early None return; cursor creation raising → the finally's
UnboundLocalError propagates; the callproc/fetch/commit work raising → the
except handler's unconditional rollback (its own failure propagating) then
None, a failing finally close replacing either; on success the fetched
stored results are returned and the transaction committed. -/
def call_procedure {σ α : Type} (run : σ → Except DBError (σ × List α))
    (conn : Option Unit) (cursorRes rollbackRes closeRes : Except DBError Unit)
    (s : σ) : σ × PyResult (List α) :=
  match conn with
  | none => (s, PyResult.value none)
  | some _ =>
    match cursorRes with
    | Except.error _ => (s, PyResult.raised PyExc.unboundLocal)
    | Except.ok _ =>
      match run s with
      | Except.error _ =>
        match rollbackRes with
        | Except.error e2 =>
          match closeRes with
          | Except.error e3 => (s, PyResult.raised (PyExc.dbError e3))
          | Except.ok _ => (s, PyResult.raised (PyExc.dbError e2))
        | Except.ok _ =>
          match closeRes with
          | Except.error e3 => (s, PyResult.raised (PyExc.dbError e3))
          | Except.ok _ => (s, PyResult.value none)
      | Except.ok (s', results) =>
        match closeRes with
        | Except.error e3 => (s', PyResult.raised (PyExc.dbError e3))
        | Except.ok _ => (s', PyResult.value (some results))

/-- On a healthy connection — cursor creation, rollback and the finally
closes all succeeding — neither helper ever raises: the caller always gets
a normal return. -/
theorem helpers_healthy_no_raise {σ α : Type} (run : σ → Except DBError (σ × α))
    (run2 : σ → Except DBError (σ × List α)) (fetch_one fetch_all commit : Bool)
    (conn : Option Unit) (s : σ) :
    (∃ s' r, execute_query run fetch_one fetch_all commit conn
        (Except.ok ()) (Except.ok ()) (Except.ok ()) s = (s', PyResult.value r)) ∧
    (∃ s' r, call_procedure run2 conn
        (Except.ok ()) (Except.ok ()) (Except.ok ()) s = (s', PyResult.value r)) := by
  constructor
  · cases conn
    · exact ⟨s, none, rfl⟩
    · rcases h : run s with e | ⟨s', a⟩ <;>
        cases commit <;> simp [execute_query, h]
  · cases conn
    · exact ⟨s, none, rfl⟩
    · rcases h : run2 s with e | ⟨s', results⟩ <;> simp [call_procedure, h]

/-- C10 counterexample: the claimed universal "on any database error the
helper returns None" is false at concrete inputs.  An Error raised at
cursor creation makes execute_query propagate UnboundLocalError instead of
returning None; an Error raised by the rollback inside the except handler
propagates out of execute_query and of call_procedure. -/
theorem C10_counterexample :
    (execute_query (fun (n : Nat) => Except.ok (n, 0)) false true true (some ())
        (Except.error DBError.otherError) (Except.ok ()) (Except.ok ()) 0).2 =
      PyResult.raised PyExc.unboundLocal ∧
    (execute_query (fun (n : Nat) => Except.ok (n, 0)) false true true (some ())
        (Except.error DBError.otherError) (Except.ok ()) (Except.ok ()) 0).2 ≠
      PyResult.value (none : Option Nat) ∧
    (execute_query
        (fun (_ : Nat) => (Except.error DBError.otherError : Except DBError (Nat × Nat)))
        false true true (some ())
        (Except.ok ()) (Except.error DBError.otherError) (Except.ok ()) 0).2 =
      PyResult.raised (PyExc.dbError DBError.otherError) ∧
    (call_procedure
        (fun (_ : Nat) => (Except.error DBError.otherError : Except DBError (Nat × List Nat)))
        (some ())
        (Except.ok ()) (Except.error DBError.otherError) (Except.ok ()) 0).2 =
      PyResult.raised (PyExc.dbError DBError.otherError) := by
  refine ⟨rfl, ?_, rfl, rfl⟩
  decide

/-- C10 (amended): provided the cursor is created successfully and the
rollback and the finally-block close calls themselves succeed, a database
error raised by the query work never escapes either helper: it is caught,
anything pending is rolled back (the caller's state is returned), and the
failure is signalled by a None result.  Without those provisos the
original universal fails, as C10_counterexample shows. -/
theorem C10_caught_error_returns_none (σ α : Type)
    (run : σ → Except DBError (σ × α)) (run2 : σ → Except DBError (σ × List α))
    (fetch_one fetch_all commit : Bool) (conn : Option Unit) (s : σ)
    (e e2 : DBError) (h : run s = Except.error e) (h2 : run2 s = Except.error e2) :
    execute_query run fetch_one fetch_all commit conn
      (Except.ok ()) (Except.ok ()) (Except.ok ()) s = (s, PyResult.value none) ∧
    call_procedure run2 conn
      (Except.ok ()) (Except.ok ()) (Except.ok ()) s = (s, PyResult.value none) := by
  cases conn <;> cases commit <;> simp [execute_query, call_procedure, h, h2]

/-- Witness for C10_caught_error_returns_none on a Nat state with an
always-failing query. -/
theorem C10_caught_error_returns_none_witness :
    (fun (_ : Nat) => (Except.error DBError.otherError : Except DBError (Nat × Nat))) 0 =
      Except.error DBError.otherError ∧
    (fun (_ : Nat) => (Except.error DBError.duplicateEntry : Except DBError (Nat × List Nat))) 0 =
      Except.error DBError.duplicateEntry ∧
    (execute_query (fun _ => Except.error DBError.otherError) false true true (some ())
        (Except.ok ()) (Except.ok ()) (Except.ok ()) 0 =
        ((0 : Nat), PyResult.value (none : Option Nat)) ∧
      call_procedure (fun _ => Except.error DBError.duplicateEntry) (some ())
        (Except.ok ()) (Except.ok ()) (Except.ok ()) 0 =
        ((0 : Nat), PyResult.value (none : Option (List Nat)))) :=
  ⟨rfl, rfl,
    C10_caught_error_returns_none Nat Nat
      (fun _ => Except.error DBError.otherError)
      (fun _ => Except.error DBError.duplicateEntry)
      false true true (some ()) 0 DBError.otherError DBError.duplicateEntry rfl rfl⟩

/-! ## Voting (src/app.py lines 409-469, `vote`)

The route checks, in order:
  1. `SELECT Status FROM Contest WHERE ContestID = %s` — missing contest →
     'Contest not found!'; Status ≠ 'Active' → 'You can only vote in
     active contests!'.
  2. `SELECT pcs.SubmissionStatus, p.UserID FROM PhotoContestSubmission pcs
     JOIN Photo p ON pcs.PhotoID = p.PhotoID WHERE pcs.PhotoID = %s AND
     pcs.ContestID = %s` — missing → 'This photo is not part of this
     contest!'; not Approved → 'You can only vote for approved photos!'.
  3. owner == voter → 'You cannot vote on your own photo!'.
Then it runs `INSERT INTO Votes ...` through execute_query with
commit=True.  A duplicate triple violates the UNIQUE key, mysql raises an
Error, execute_query catches it, rolls back and returns None — so the
route's own `except Error` block (the one that would flash 'You have
already voted for this photo!') can never fire; the route only sees None
and flashes the generic 'An error occurred while casting your vote.'. -/

/-- The flash outcome the `vote` route produces. -/
inductive VoteOutcome where
  | voteCast              -- 'Vote cast successfully!'
  | contestNotFound       -- 'Contest not found!'
  | notActiveContest      -- 'You can only vote in active contests!'
  | photoNotInContest     -- 'This photo is not part of this contest!'
  | photoNotApproved      -- 'You can only vote for approved photos!'
  | ownPhoto              -- 'You cannot vote on your own photo!'
  | genericVoteError      -- 'An error occurred while casting your vote.'
  | alreadyVoted          -- 'You have already voted for this photo!' (dead branch)
  | otherVoteFailure      -- 'Vote failed: ...' (dead branch)
deriving DecidableEq, Repr

/-- `SELECT Status FROM Contest WHERE ContestID = %s`, fetch_one. -/
def contestStatusLookup (db : DB) (contestId : Nat) : Option Status :=
  (db.contests.find? (fun c => c.contestID == contestId)).map (fun c => c.status)

/-- The submission/photo join of the vote route: SubmissionStatus of the
(photoId, contestId) submission together with the photo owner's UserID. -/
def submissionOwnerLookup (db : DB) (photoId contestId : Nat) :
    Option (SubStatus × Nat) :=
  match db.submissions.find? (fun s => s.photoID == photoId && s.contestID == contestId) with
  | none => none
  | some sub =>
    match db.photos.find? (fun p => p.photoID == sub.photoID) with
    | none => none
    | some p => some (sub.submissionStatus, p.userID)

/-- The INSERT INTO Votes as a database operation: a triple already present
violates the UNIQUE (UserID, PhotoID, ContestID) key and raises a
duplicate-entry Error; otherwise the row is appended and the new VoteID
(auto-increment) is the last row id. -/
def voteInsertRun (userId photoId contestId : Nat) (db : DB) :
    Except DBError (DB × Nat) :=
  if db.votes.any (fun v =>
      v.userID == userId && v.photoID == photoId && v.contestID == contestId) then
    Except.error DBError.duplicateEntry
  else
    Except.ok ({ db with votes := db.votes ++ [⟨userId, photoId, contestId⟩] },
      db.votes.length + 1)

/-- The route's vote insert: execute_query with commit=True (fetch flags at
their defaults) on a live, healthy connection — cursor creation, rollback
and the finally closes all succeed, so by helpers_healthy_no_raise the
raised branch below is unreachable; it is collapsed to the None the route
treats as failure only to make the match total. -/
def insertVote (db : DB) (userId photoId contestId : Nat) : DB × Option Nat :=
  match execute_query (voteInsertRun userId photoId contestId) false true true
      (some ()) (Except.ok ()) (Except.ok ()) (Except.ok ()) db with
  | (db2, PyResult.value r) => (db2, r)
  | (db2, PyResult.raised _) => (db2, none)

/-- The `vote` route (src/app.py lines 409-469) over the database state. -/
def castVote (db : DB) (userId photoId contestId : Nat) : DB × VoteOutcome :=
  match contestStatusLookup db contestId with
  | none => (db, VoteOutcome.contestNotFound)
  | some st =>
    if st ≠ Status.active then (db, VoteOutcome.notActiveContest)
    else
      match submissionOwnerLookup db photoId contestId with
      | none => (db, VoteOutcome.photoNotInContest)
      | some (subst, ownerId) =>
        if subst ≠ SubStatus.approved then (db, VoteOutcome.photoNotApproved)
        else if ownerId = userId then (db, VoteOutcome.ownPhoto)
        else
          match insertVote db userId photoId contestId with
          | (db2, some _) => (db2, VoteOutcome.voteCast)
          | (db2, none) => (db2, VoteOutcome.genericVoteError)

/-- Database for the duplicate-vote run: contest 1 Active, photo 1 owned by
user 1, its submission Approved, no votes yet; user 2 votes. -/
def dupVoteDB : DB :=
  { users := [⟨1, 10⟩, ⟨2, 10⟩],
    contests := [{ contestID := 1, title := "c", startDate := 2, endDate := 9,
                   maxParticipants := 10, prizePoints := 100, entryFee := 3,
                   managerId := 1, status := Status.active }],
    photos := [⟨1, 1, "p", "f"⟩],
    submissions := [⟨1, 1, 1, SubStatus.approved⟩],
    votes := [] }

/-- C3 evaluated at the failing input: the first castVote for
(userId 2, photoId 1, contestId 1) succeeds; the second identical call
leaves exactly one persisted vote row for the triple, but is reported with
the generic 'An error occurred while casting your vote.' message, not the
duplicate-vote one — execute_query swallows the duplicate-entry Error and
returns None, so the route's duplicate-handling except block is dead code. -/
theorem C3_second_vote_generic_error :
    (castVote dupVoteDB 2 1 1).2 = VoteOutcome.voteCast ∧
    (castVote (castVote dupVoteDB 2 1 1).1 2 1 1).2 = VoteOutcome.genericVoteError ∧
    (castVote (castVote dupVoteDB 2 1 1).1 2 1 1).2 ≠ VoteOutcome.alreadyVoted ∧
    ((castVote (castVote dupVoteDB 2 1 1).1 2 1 1).1.votes.filter
      (fun v => v.userID == 2 && v.photoID == 1 && v.contestID == 1)).length = 1 := by
  decide

/-- Database refuting C4's "regardless of contest state": contest 1 is
Upcoming, photo 1 belongs to user 1, the submission is Approved, and user 1
votes on their own photo. -/
def selfUpcomingDB : DB :=
  { users := [⟨1, 10⟩],
    contests := [{ contestID := 1, title := "c", startDate := 20, endDate := 30,
                   maxParticipants := 10, prizePoints := 100, entryFee := 3,
                   managerId := 1, status := Status.upcoming }],
    photos := [⟨1, 1, "p", "f"⟩],
    submissions := [⟨1, 1, 1, SubStatus.approved⟩],
    votes := [] }

/-- C4 counterexample: a self-vote on a non-Active contest is rejected by
the earlier contest-status check ('You can only vote in active contests!'),
not by the self-vote check, so the self-vote failure does depend on the
contest being Active. -/
theorem C4_counterexample :
    submissionOwnerLookup selfUpcomingDB 1 1 = some (SubStatus.approved, 1) ∧
    (castVote selfUpcomingDB 1 1 1).2 = VoteOutcome.notActiveContest ∧
    (castVote selfUpcomingDB 1 1 1).2 ≠ VoteOutcome.ownPhoto := by
  decide

/-- C4 (amended): when the earlier gates pass — the contest is Active and
the (photoId, contestId) submission is Approved — a vote whose photo owner
equals the voter always fails with the self-vote error and changes nothing. -/
theorem C4_self_vote_rejected (db : DB) (userId photoId contestId : Nat)
    (hc : contestStatusLookup db contestId = some Status.active)
    (hs : submissionOwnerLookup db photoId contestId = some (SubStatus.approved, userId)) :
    castVote db userId photoId contestId = (db, VoteOutcome.ownPhoto) := by
  simp [castVote, hc, hs]

/-- Database where the self-vote gate itself is reached: contest Active,
submission Approved, owner votes on their own photo. -/
def selfActiveDB : DB :=
  { users := [⟨1, 10⟩],
    contests := [{ contestID := 1, title := "c", startDate := 2, endDate := 9,
                   maxParticipants := 10, prizePoints := 100, entryFee := 3,
                   managerId := 1, status := Status.active }],
    photos := [⟨1, 1, "p", "f"⟩],
    submissions := [⟨1, 1, 1, SubStatus.approved⟩],
    votes := [] }

/-- Witness for C4_self_vote_rejected. -/
theorem C4_self_vote_rejected_witness :
    (contestStatusLookup selfActiveDB 1 = some Status.active ∧
      submissionOwnerLookup selfActiveDB 1 1 = some (SubStatus.approved, 1)) ∧
    castVote selfActiveDB 1 1 1 = (selfActiveDB, VoteOutcome.ownPhoto) :=
  ⟨⟨by decide, by decide⟩, C4_self_vote_rejected selfActiveDB 1 1 1 (by decide) (by decide)⟩

/-- C5: the vote route validates in this order and returns the first failing
check's error, leaving the database untouched: contest missing or not
Active (the spec's InvalidStateError, flashed as 'Contest not found!' /
'You can only vote in active contests!'); then submission missing or not
Approved (NotEligibleError); then photo owner equal to the voter
(SelfVoteError); only when every gate passes is the INSERT attempted. -/
theorem C5_validation_order (db : DB) (userId photoId contestId : Nat) :
    (contestStatusLookup db contestId = none →
      castVote db userId photoId contestId = (db, VoteOutcome.contestNotFound)) ∧
    (∀ st, contestStatusLookup db contestId = some st → st ≠ Status.active →
      castVote db userId photoId contestId = (db, VoteOutcome.notActiveContest)) ∧
    (contestStatusLookup db contestId = some Status.active →
      submissionOwnerLookup db photoId contestId = none →
      castVote db userId photoId contestId = (db, VoteOutcome.photoNotInContest)) ∧
    (∀ subst ownerId, contestStatusLookup db contestId = some Status.active →
      submissionOwnerLookup db photoId contestId = some (subst, ownerId) →
      subst ≠ SubStatus.approved →
      castVote db userId photoId contestId = (db, VoteOutcome.photoNotApproved)) ∧
    (∀ ownerId, contestStatusLookup db contestId = some Status.active →
      submissionOwnerLookup db photoId contestId = some (SubStatus.approved, ownerId) →
      ownerId = userId →
      castVote db userId photoId contestId = (db, VoteOutcome.ownPhoto)) ∧
    (∀ ownerId, contestStatusLookup db contestId = some Status.active →
      submissionOwnerLookup db photoId contestId = some (SubStatus.approved, ownerId) →
      ownerId ≠ userId →
      castVote db userId photoId contestId =
        ((insertVote db userId photoId contestId).1,
          if (insertVote db userId photoId contestId).2.isSome then VoteOutcome.voteCast
          else VoteOutcome.genericVoteError)) := by
  refine ⟨?_, ?_, ?_, ?_, ?_, ?_⟩
  · intro hc
    simp [castVote, hc]
  · intro st hc hst
    simp [castVote, hc, hst]
  · intro hc hs
    simp [castVote, hc, hs]
  · intro subst ownerId hc hs hsub
    simp [castVote, hc, hs, hsub]
  · intro ownerId hc hs howner
    subst howner
    simp [castVote, hc, hs]
  · intro ownerId hc hs hne
    rcases hiv : insertVote db userId photoId contestId with ⟨db2, r⟩
    cases r <;>
      simp [castVote, hc, hs, hne, hiv]

/-- A database with no contest row. -/
def dbNoContest : DB :=
  { users := [⟨2, 10⟩], contests := [], photos := [], submissions := [], votes := [] }

/-- Contest 1 Active but no submission rows. -/
def dbActiveNoSub : DB :=
  { users := [⟨2, 10⟩],
    contests := [{ contestID := 1, title := "c", startDate := 2, endDate := 9,
                   maxParticipants := 10, prizePoints := 100, entryFee := 3,
                   managerId := 1, status := Status.active }],
    photos := [], submissions := [], votes := [] }

/-- Contest 1 Active, photo 1 owned by user 1, submission still Pending. -/
def dbActivePending : DB :=
  { users := [⟨1, 10⟩, ⟨2, 10⟩],
    contests := [{ contestID := 1, title := "c", startDate := 2, endDate := 9,
                   maxParticipants := 10, prizePoints := 100, entryFee := 3,
                   managerId := 1, status := Status.active }],
    photos := [⟨1, 1, "p", "f"⟩],
    submissions := [⟨1, 1, 1, SubStatus.pending⟩],
    votes := [] }

/-- Witness for C5_validation_order: each branch of the validation chain
fired on a concrete database. -/
theorem C5_validation_order_witness :
    castVote dbNoContest 2 1 1 = (dbNoContest, VoteOutcome.contestNotFound) ∧
    castVote selfUpcomingDB 2 1 1 = (selfUpcomingDB, VoteOutcome.notActiveContest) ∧
    castVote dbActiveNoSub 2 1 1 = (dbActiveNoSub, VoteOutcome.photoNotInContest) ∧
    castVote dbActivePending 2 1 1 = (dbActivePending, VoteOutcome.photoNotApproved) ∧
    castVote selfActiveDB 1 1 1 = (selfActiveDB, VoteOutcome.ownPhoto) ∧
    castVote dupVoteDB 2 1 1 =
      ((insertVote dupVoteDB 2 1 1).1,
        if (insertVote dupVoteDB 2 1 1).2.isSome then VoteOutcome.voteCast
        else VoteOutcome.genericVoteError) :=
  ⟨(C5_validation_order dbNoContest 2 1 1).1 (by decide),
    (C5_validation_order selfUpcomingDB 2 1 1).2.1 Status.upcoming (by decide) (by decide),
    (C5_validation_order dbActiveNoSub 2 1 1).2.2.1 (by decide) (by decide),
    (C5_validation_order dbActivePending 2 1 1).2.2.2.1 SubStatus.pending 1
      (by decide) (by decide) (by decide),
    (C5_validation_order selfActiveDB 1 1 1).2.2.2.2.1 1 (by decide) (by decide) rfl,
    (C5_validation_order dupVoteDB 2 1 1).2.2.2.2.2 1 (by decide) (by decide) (by decide)⟩

/-! ## Leaderboard ranking (src/app.py lines 290-313, `contest_detail`)

The leaderboard query counts COUNT(DISTINCT v.VoteID) per photo of the
contest (VoteID is the auto-increment primary key, so every Votes row
counts once) and assigns `RANK() OVER (ORDER BY COUNT(DISTINCT v.VoteID)
DESC)`: a row's rank is one more than the number of rows ordered strictly
before it, i.e. the number of photos with a strictly larger vote count. -/

/-- Votes for a photo within a contest: the rows of Votes joined on
`p.PhotoID = v.PhotoID AND v.ContestID = c.ContestID`. -/
def votesForPhoto (votes : List VoteRow) (contestId photoId : Nat) : Nat :=
  (votes.filter (fun v => v.photoID == photoId && v.contestID == contestId)).length

/-- RANK() semantics over the contest's photos, ordered by vote count
descending. -/
def rankOf (votes : List VoteRow) (contestId : Nat) (photoIds : List Nat)
    (photoId : Nat) : Nat :=
  1 + (photoIds.filter (fun q =>
    decide (votesForPhoto votes contestId photoId < votesForPhoto votes contestId q))).length

/-- The Rank column of the leaderboard, photo by photo. -/
def leaderboardRanks (votes : List VoteRow) (contestId : Nat)
    (photoIds : List Nat) : List Nat :=
  photoIds.map (rankOf votes contestId photoIds)

/-- C6: the leaderboard uses competition ("RANK()") ranking — photos with
equal vote counts share a rank — and any contest whose four photos have
vote counts 5, 5, 3 and 1 gets the ranks [1, 1, 3, 4]: the tied leaders
share rank 1 and the next distinct count skips to rank 3. -/
theorem C6_rank_semantics (votes : List VoteRow) (contestId p1 p2 p3 p4 : Nat)
    (h1 : votesForPhoto votes contestId p1 = 5)
    (h2 : votesForPhoto votes contestId p2 = 5)
    (h3 : votesForPhoto votes contestId p3 = 3)
    (h4 : votesForPhoto votes contestId p4 = 1) :
    leaderboardRanks votes contestId [p1, p2, p3, p4] = [1, 1, 3, 4] ∧
    (∀ (photoIds : List Nat) (q r : Nat),
      votesForPhoto votes contestId q = votesForPhoto votes contestId r →
      rankOf votes contestId photoIds q = rankOf votes contestId photoIds r) := by
  constructor
  · simp [leaderboardRanks, rankOf, List.filter, h1, h2, h3, h4]
  · intro photoIds q r h
    simp [rankOf, h]

/-- Fourteen concrete votes in contest 1: five for photo 1, five for
photo 2, three for photo 3, one for photo 4. -/
def c6Votes : List VoteRow :=
  [⟨10, 1, 1⟩, ⟨11, 1, 1⟩, ⟨12, 1, 1⟩, ⟨13, 1, 1⟩, ⟨14, 1, 1⟩,
   ⟨10, 2, 1⟩, ⟨11, 2, 1⟩, ⟨12, 2, 1⟩, ⟨13, 2, 1⟩, ⟨14, 2, 1⟩,
   ⟨10, 3, 1⟩, ⟨11, 3, 1⟩, ⟨12, 3, 1⟩,
   ⟨10, 4, 1⟩]

/-- Witness for C6_rank_semantics on a concrete vote table. -/
theorem C6_rank_semantics_witness :
    (votesForPhoto c6Votes 1 1 = 5 ∧ votesForPhoto c6Votes 1 2 = 5 ∧
      votesForPhoto c6Votes 1 3 = 3 ∧ votesForPhoto c6Votes 1 4 = 1) ∧
    leaderboardRanks c6Votes 1 [1, 2, 3, 4] = [1, 1, 3, 4] :=
  ⟨⟨by decide, by decide, by decide, by decide⟩,
    (C6_rank_semantics c6Votes 1 1 2 3 4 (by decide) (by decide) (by decide) (by decide)).1⟩

/-! ## Photo submission (src/app.py lines 344-404, `submit_photo`)

The route validates the upload and then delegates the whole business step
to the stored procedure `sp_submit_photo_to_contest` through
call_procedure; the coin check and all three row effects live in the
procedure, whose SQL body is not part of this repository's sources. -/

/-- Result the submission procedure reports back through its Message row. -/
inductive SubmitOutcome where
  | submitted (submissionId : Nat)
  | insufficientCoins
  | noContestOrUser
deriving DecidableEq, Repr

/-- Modelled from the spec: the stored procedure
`sp_submit_photo_to_contest` is not under src/ (only its caller
`submit_photo` is).  Per spec §4.2, its preconditions are that the contest
exists and the user has Coins ≥ Contest.EntryFee; on success it atomically
inserts the Photo row, inserts the PhotoContestSubmission row with
SubmissionStatus Pending, debits User.Coins by EntryFee and returns the new
submission id; if the coins are insufficient it fails with
InsufficientFundsError and no side effects occur. -/
def sp_submit_photo_to_contest (db : DB) (userId contestId : Nat)
    (title filePath : String) : DB × SubmitOutcome :=
  match db.contests.find? (fun c => c.contestID == contestId),
        db.users.find? (fun u => u.userID == userId) with
  | some contest, some user =>
    if user.coins < contest.entryFee then (db, SubmitOutcome.insufficientCoins)
    else
      let photoId := db.photos.length + 1
      let submissionId := db.submissions.length + 1
      ({ db with
          photos := db.photos ++ [⟨photoId, userId, title, filePath⟩],
          submissions := db.submissions ++ [⟨submissionId, photoId, contestId, SubStatus.pending⟩],
          users := db.users.map (fun u' =>
            if u'.userID == userId then { u' with coins := u'.coins - contest.entryFee }
            else u') },
        SubmitOutcome.submitted submissionId)
  | _, _ => (db, SubmitOutcome.noContestOrUser)

/-- C7: a submission by a user whose Coins are strictly below the contest's
EntryFee fails with the insufficient-funds error and leaves the database
exactly as it was — Coins unchanged, no Photo row, no Submission row. -/
theorem C7_insufficient_coins_no_effects (db : DB) (userId contestId : Nat)
    (title filePath : String) (contest : Contest) (user : UserRow)
    (hc : db.contests.find? (fun c => c.contestID == contestId) = some contest)
    (hu : db.users.find? (fun u => u.userID == userId) = some user)
    (hlt : user.coins < contest.entryFee) :
    sp_submit_photo_to_contest db userId contestId title filePath =
      (db, SubmitOutcome.insufficientCoins) := by
  simp [sp_submit_photo_to_contest, hc, hu, hlt]

/-- A user with 2 coins facing an entry fee of 3. -/
def poorUserDB : DB :=
  { users := [⟨1, 2⟩],
    contests := [{ contestID := 1, title := "c", startDate := 2, endDate := 9,
                   maxParticipants := 10, prizePoints := 100, entryFee := 3,
                   managerId := 1, status := Status.active }],
    photos := [], submissions := [], votes := [] }

/-- Witness for C7_insufficient_coins_no_effects. -/
theorem C7_insufficient_coins_no_effects_witness :
    (poorUserDB.contests.find? (fun c => c.contestID == 1) =
        some { contestID := 1, title := "c", startDate := 2, endDate := 9,
               maxParticipants := 10, prizePoints := 100, entryFee := 3,
               managerId := 1, status := Status.active } ∧
      poorUserDB.users.find? (fun u => u.userID == 1) = some ⟨1, 2⟩ ∧
      (2 : Nat) < 3) ∧
    sp_submit_photo_to_contest poorUserDB 1 1 "t" "f" =
      (poorUserDB, SubmitOutcome.insufficientCoins) :=
  ⟨⟨by decide, by decide, by decide⟩,
    C7_insufficient_coins_no_effects poorUserDB 1 1 "t" "f"
      { contestID := 1, title := "c", startDate := 2, endDate := 9,
        maxParticipants := 10, prizePoints := 100, entryFee := 3,
        managerId := 1, status := Status.active }
      ⟨1, 2⟩ (by decide) (by decide) (by decide)⟩

/-! ## Contest creation (src/app.py lines 642-667, `create_contest`)

The POST handler reads six form fields with `request.form.get` (an absent
field yields None) and immediately runs the INSERT through execute_query
with commit=True; there is no required-field check in the application.  The
Contest table schema is not under src/. -/

/-- The six form fields of the create-contest POST; an absent field is
`none`, exactly as `request.form.get` returns None. -/
structure ContestForm where
  title : Option String
  startDate : Option String
  endDate : Option String
  maxParticipants : Option String
  prizePoints : Option String
  entryFee : Option String
deriving DecidableEq, Repr

/-- The values the INSERT binds into a new Contest row (dates and numbers
arrive as the raw form strings; the application never parses them). -/
structure ContestInsertRow where
  title : String
  startDate : String
  endDate : String
  maxParticipants : String
  prizePoints : String
  entryFee : String
  managerId : Nat
deriving DecidableEq, Repr

/-- The flash outcome of the create-contest POST.  `validationFailure`
models the spec taxonomy's ValidationError for missing input; no code path
of the handler produces it. -/
inductive CreateContestOutcome where
  | created              -- 'Contest created successfully!'
  | creationFailed       -- 'Contest creation failed'
  | validationFailure    -- spec-level ValidationError: unreachable in the code
deriving DecidableEq, Repr

/-- The create-contest POST path.  Modelled from the spec: the Contest
schema is missing from src/, and the spec calls the six fields required, so
they are modelled as NOT NULL columns — an INSERT binding a NULL raises a
database Error, which execute_query catches, rolls back and turns into
None, so the handler flashes the generic failure and the table is
unchanged.  With every field present the INSERT succeeds and the row is
stored. -/
def create_contest (rows : List ContestInsertRow) (f : ContestForm)
    (adminId : Nat) : List ContestInsertRow × CreateContestOutcome :=
  match f.title, f.startDate, f.endDate, f.maxParticipants, f.prizePoints, f.entryFee with
  | some t, some s, some e, some m, some p, some fee =>
    (rows ++ [⟨t, s, e, m, p, fee, adminId⟩], CreateContestOutcome.created)
  | _, _, _, _, _, _ => (rows, CreateContestOutcome.creationFailed)

/-- A create-contest form with the title absent and every other field set. -/
def noTitleForm : ContestForm :=
  { title := none, startDate := some "2024-01-01", endDate := some "2024-02-01",
    maxParticipants := some "10", prizePoints := some "100", entryFee := some "3" }

/-- C8 counterexample: with the title absent the handler does not fail with
a ValidationError — it attempts the INSERT, the database rejects it, and the
user sees the generic 'Contest creation failed'; no row is inserted. -/
theorem C8_counterexample :
    noTitleForm.title = none ∧
    (create_contest [] noTitleForm 7).2 ≠ CreateContestOutcome.validationFailure ∧
    create_contest [] noTitleForm 7 = ([], CreateContestOutcome.creationFailed) := by
  decide

/-- C8 (amended): a create-contest call with any required field absent is
rejected by the database rather than by an application-side validation
check; it reports the generic creation failure and inserts no Contest row. -/
theorem C8_missing_field_no_row (rows : List ContestInsertRow) (f : ContestForm)
    (adminId : Nat)
    (h : f.title = none ∨ f.startDate = none ∨ f.endDate = none ∨
      f.maxParticipants = none ∨ f.prizePoints = none ∨ f.entryFee = none) :
    create_contest rows f adminId = (rows, CreateContestOutcome.creationFailed) := by
  obtain ⟨t, s, e, m, p, fee⟩ := f
  cases t <;> cases s <;> cases e <;> cases m <;> cases p <;> cases fee <;>
    simp_all [create_contest]

/-- Witness for C8_missing_field_no_row on the no-title form. -/
theorem C8_missing_field_no_row_witness :
    (noTitleForm.title = none ∨ noTitleForm.startDate = none ∨
      noTitleForm.endDate = none ∨ noTitleForm.maxParticipants = none ∨
      noTitleForm.prizePoints = none ∨ noTitleForm.entryFee = none) ∧
    create_contest [] noTitleForm 7 = ([], CreateContestOutcome.creationFailed) :=
  ⟨Or.inl (by decide), C8_missing_field_no_row [] noTitleForm 7 (Or.inl (by decide))⟩

end PhotoContest
